import Mathlib

/-!
Shallow embedding of `src/examples/client_sse.py`: a single example script
that performs a preflight HTTP GET, opens an SSE streaming session, lists
the server's tools and invokes one tool, printing results.  The external
world (HTTP server, SSE library, MCP session) is modelled as a record of
outcomes; the script body is embedded as a function producing the final
result together with the trace of observable events, in program order.
-/

namespace ClientSse

/-- A Python exception value, as it propagates out of a failing step.
`authError` marks an authentication failure; `exc` is any other error. -/
inductive PyErr where
  | authError : PyErr
  | exc : String → PyErr
deriving DecidableEq, Repr

/-- Python f-string rendering of `os.getenv(...)`: `None` renders as the
string "None", a present value renders as itself. -/
def pyOptStr : Option String → String
  | none => "None"
  | some s => s

/-- `MCP_SERVER_URL = "https://actors-mcp-server.apify.actor"` (line 21). -/
def MCP_SERVER_URL : String := "https://actors-mcp-server.apify.actor"

/-- `HEADERS = {"Authorization": f"Bearer {os.getenv('APIFY_TOKEN')}"}`
(line 23): the single Authorization header value, built once at module
load from the environment lookup. -/
def HEADERS (token : Option String) : String := "Bearer " ++ pyOptStr token

/-- `Path(__file__).resolve().parent.parent.parent / ".env"` (line 19):
three parents up from the script file, joined with ".env".  Paths are
modelled as lists of components. -/
def dotenvPath (scriptPath : List String) : List String :=
  scriptPath.dropLast.dropLast.dropLast ++ [".env"]

/-- A JSON-ish argument value in a tool-call argument map. -/
inductive ArgVal where
  | str : String → ArgVal
  | num : Nat → ArgVal
deriving DecidableEq, Repr

/-- The result object of `session.list_tools()`.  `toolsAttr = none`
models an object without a `tools` attribute (`hasattr` is false);
`toolsAttr = some l` models a `tools` attribute holding list `l`. -/
structure ToolsResult where
  toolsAttr : Option (List String)
deriving DecidableEq, Repr

/-- The result object of `session.call_tool(...)`: its `content` list. -/
structure CallToolResult where
  content : List String
deriving DecidableEq, Repr

/-- Observable events emitted by the script, in program order. -/
inductive Ev where
  | loadDotenv : List String → Ev
  | envRead : String → Ev
  | print : String → Ev
  | printResponse : String → Ev
  | printTools : ToolsResult → Ev
  | printContent : String → Ev
  | httpGet : String → String → Ev
  | sseOpen : String → Nat → String → Ev
  | sseClose : Ev
  | sessionEnter : Ev
  | sessionClose : Ev
  | initOp : Ev
  | listToolsOp : Ev
  | callToolOp : String → List (String × ArgVal) → Ev
deriving DecidableEq, Repr

/-- Outcomes chosen by the external world for each fallible step of the
script: the preflight GET (with its parsed JSON body on success), the SSE
connection enter, the `ClientSession` enter, `initialize`, `list_tools`
and `call_tool`. -/
structure World where
  preflightRes : Except PyErr String
  sseOpenRes : Except PyErr Unit
  sessionEnterRes : Except PyErr Unit
  initRes : Except PyErr Unit
  listToolsRes : Except PyErr ToolsResult
  callToolRes : Except PyErr CallToolResult

/-- The fixed tool name of line 42. -/
def ragTool : String := "apify/rag-web-browser"

/-- The fixed argument map `{"query": "example.com", "maxResults": 3}`. -/
def ragArgs : List (String × ArgVal) :=
  [("query", ArgVal.str "example.com"), ("maxResults", ArgVal.num 3)]

/-- Body of the inner `ClientSession` block (lines 33-46): initialize,
list tools and print them, early-return on an empty tools attribute,
otherwise call the fixed tool and print each content item. -/
def runInner (w : World) : Except PyErr Unit × List Ev :=
  match w.initRes with
  | .error e => (.error e, [.initOp])
  | .ok _ =>
    match w.listToolsRes with
    | .error e => (.error e, [.initOp, .listToolsOp])
    | .ok tools =>
      let t : List Ev := [.initOp, .listToolsOp, .printTools tools]
      if tools.toolsAttr = some [] then
        (.ok (), t ++ [.print "No tools available!"])
      else
        let t2 := t ++ [.callToolOp ragTool ragArgs]
        match w.callToolRes with
        | .error e => (.error e, t2)
        | .ok result =>
          (.ok (), t2 ++ [.print "Tools Call Result:"]
                      ++ result.content.map Ev.printContent)

/-- The `run` coroutine (lines 25-46): print the banner, issue the
preflight GET and print its JSON body, then open the SSE connection and
the session (both scoped: released on every exit path of their bodies),
and run the inner block.  `auth` is the Authorization header value used
for both the GET and the SSE connection. -/
def run (auth : String) (w : World) : Except PyErr Unit × List Ev :=
  let t0 : List Ev := [.print "Start MCP Server with Actors",
                       .httpGet MCP_SERVER_URL auth]
  match w.preflightRes with
  | .error e => (.error e, t0)
  | .ok body =>
    let t1 : List Ev := t0 ++ [.printResponse body,
                               .sseOpen (MCP_SERVER_URL ++ "/sse") 60 auth]
    match w.sseOpenRes with
    | .error e => (.error e, t1)
    | .ok _ =>
      match w.sessionEnterRes with
      | .error e => (.error e, t1 ++ [.sseClose])
      | .ok _ =>
        let r := runInner w
        (r.1, t1 ++ [.sessionEnter] ++ r.2 ++ [.sessionClose, .sseClose])

/-- Module-load effects (lines 19-23): load the .env file from the fixed
path, read APIFY_TOKEN from the environment once, build `HEADERS`. -/
def moduleInit (scriptPath : List String) (env : String → Option String) :
    String × List Ev :=
  (HEADERS (env "APIFY_TOKEN"),
   [.loadDotenv (dotenvPath scriptPath), .envRead "APIFY_TOKEN"])

/-- The whole script: module load followed by `asyncio.run(run())`. -/
def fullProgram (scriptPath : List String) (env : String → Option String)
    (w : World) : Except PyErr Unit × List Ev :=
  let i := moduleInit scriptPath env
  let r := run i.1 w
  (r.1, i.2 ++ r.2)

/-- The six fallible steps of the run, in program order. -/
inductive Step where
  | preflight | sseOpen | sessionEnter | initStep | listTools | callTool
deriving DecidableEq, Repr

/-- Position of a step in program order. -/
def Step.idx : Step → Nat
  | .preflight => 0
  | .sseOpen => 1
  | .sessionEnter => 2
  | .initStep => 3
  | .listTools => 4
  | .callTool => 5

/-- Which step an event belongs to (none for prints and releases). -/
def evStepIdx : Ev → Option Nat
  | .httpGet _ _ => some 0
  | .sseOpen _ _ _ => some 1
  | .sessionEnter => some 2
  | .initOp => some 3
  | .listToolsOp => some 4
  | .callToolOp _ _ => some 5
  | _ => none

/-- `laterEv s ev`: event `ev` belongs to a step strictly after `s`. -/
def laterEv (s : Step) (ev : Ev) : Prop :=
  match evStepIdx ev with
  | some n => s.idx < n
  | none => False

/-- Did a fallible step succeed? -/
def isOk {α : Type} : Except PyErr α → Bool
  | .ok _ => true
  | .error _ => false

/-- `reachedAndFailed w s e`: in world `w`, every step before `s` that the
control flow consults succeeds, step `s` is reached, and it fails with
`e`.  For the call step this includes that the early return was not
taken. -/
def reachedAndFailed (w : World) : Step → PyErr → Prop
  | .preflight, e => w.preflightRes = .error e
  | .sseOpen, e => isOk w.preflightRes = true ∧ w.sseOpenRes = .error e
  | .sessionEnter, e => isOk w.preflightRes = true ∧ isOk w.sseOpenRes = true ∧
      w.sessionEnterRes = .error e
  | .initStep, e => isOk w.preflightRes = true ∧ isOk w.sseOpenRes = true ∧
      isOk w.sessionEnterRes = true ∧ w.initRes = .error e
  | .listTools, e => isOk w.preflightRes = true ∧ isOk w.sseOpenRes = true ∧
      isOk w.sessionEnterRes = true ∧ isOk w.initRes = true ∧
      w.listToolsRes = .error e
  | .callTool, e => isOk w.preflightRes = true ∧ isOk w.sseOpenRes = true ∧
      isOk w.sessionEnterRes = true ∧ isOk w.initRes = true ∧
      (∃ tr, w.listToolsRes = .ok tr ∧ tr.toolsAttr ≠ some []) ∧
      w.callToolRes = .error e

/-- The five network operations of the run (preflight GET, SSE open,
initialize, list tools, call tool). -/
def netEv : Ev → Bool
  | .httpGet _ _ => true
  | .sseOpen _ _ _ => true
  | .initOp => true
  | .listToolsOp => true
  | .callToolOp _ _ => true
  | _ => false

/-- Is an event the preflight HTTP GET? -/
def isHttpGet : Ev → Bool
  | .httpGet _ _ => true
  | _ => false

/-- Is an event a tool invocation? -/
def isCallTool : Ev → Bool
  | .callToolOp _ _ => true
  | _ => false

/-- Is an event the module-load environment read? -/
def isEnvRead : Ev → Bool
  | .envRead _ => true
  | _ => false

/-- Modelled from the spec: the server-side authentication check of the
Apify MCP service is not part of `src/` (only this example client is).
Per the spec, "Missing or invalid token causes the preflight request to
fail with an authentication error rather than silently succeeding": the
service accepts the preflight GET only when its Authorization header is
`Bearer t` for a token `t` it recognises, and otherwise fails it with an
authentication error. -/
def serverPreflight (validTokens : List String) (authValue : String) :
    Except PyErr String :=
  if validTokens.any (fun t => authValue = "Bearer " ++ t) then
    .ok "{}"
  else
    .error .authError

/-- A world in which every step succeeds, with one available tool and a
two-item call result; used to instantiate hypotheses at concrete runs. -/
def okWorld : World where
  preflightRes := .ok "{}"
  sseOpenRes := .ok ()
  sessionEnterRes := .ok ()
  initRes := .ok ()
  listToolsRes := .ok ⟨some ["apify/rag-web-browser"]⟩
  callToolRes := .ok ⟨["item1", "item2"]⟩

/-- `okWorld` with an empty tools list (`tools.tools == []`). -/
def emptyToolsWorld : World := { okWorld with listToolsRes := .ok ⟨some []⟩ }

/-- `okWorld` whose list result has no `tools` attribute at all. -/
def noAttrWorld : World := { okWorld with listToolsRes := .ok ⟨none⟩ }

/-- C1: if the list-tools result exposes an empty tools collection, the
run prints "No tools available!", returns normally (no error), and never
performs a tool invocation. -/
theorem c1_empty_tools_early_return
    (a : String) (w : World) (b : String) (tr : ToolsResult)
    (hpf : w.preflightRes = .ok b)
    (hso : w.sseOpenRes = .ok ())
    (hse : w.sessionEnterRes = .ok ())
    (hin : w.initRes = .ok ())
    (hls : w.listToolsRes = .ok tr)
    (hattr : tr.toolsAttr = some []) :
    (run a w).1 = .ok () ∧
    Ev.print "No tools available!" ∈ (run a w).2 ∧
    ∀ n args, Ev.callToolOp n args ∉ (run a w).2 := by
  obtain ⟨pf, so, se, ir, lr, cr⟩ := w
  obtain ⟨attr⟩ := tr
  simp only at hpf hso hse hin hls
  subst hpf hso hse hin hls
  simp only [ToolsResult.mk.injEq] at hattr
  subst hattr
  simp [run, runInner]

/-- Witness for C1 at a concrete world. -/
theorem c1_empty_tools_early_return_witness :
    (run "Bearer tok" emptyToolsWorld).1 = .ok () ∧
    Ev.print "No tools available!" ∈ (run "Bearer tok" emptyToolsWorld).2 ∧
    Ev.callToolOp ragTool ragArgs ∉ (run "Bearer tok" emptyToolsWorld).2 := by
  have h := c1_empty_tools_early_return "Bearer tok" emptyToolsWorld "{}"
    ⟨some []⟩ rfl rfl rfl rfl rfl rfl
  exact ⟨h.1, h.2.1, h.2.2 ragTool ragArgs⟩

/-- C2: with a non-empty tools collection, the run performs exactly one
tool invocation, namely "apify/rag-web-browser" with the fixed argument
map, and prints each item of the successful result's content list. -/
theorem c2_nonempty_tools_invocation
    (a : String) (w : World) (b : String) (tr : ToolsResult)
    (ts : List String) (res : CallToolResult)
    (hpf : w.preflightRes = .ok b)
    (hso : w.sseOpenRes = .ok ())
    (hse : w.sessionEnterRes = .ok ())
    (hin : w.initRes = .ok ())
    (hls : w.listToolsRes = .ok tr)
    (hattr : tr.toolsAttr = some ts)
    (hne : ts ≠ [])
    (hct : w.callToolRes = .ok res) :
    (run a w).2.countP isCallTool = 1 ∧
    Ev.callToolOp ragTool ragArgs ∈ (run a w).2 ∧
    (∀ n args, Ev.callToolOp n args ∈ (run a w).2 → n = ragTool ∧ args = ragArgs) ∧
    (∀ c ∈ res.content, Ev.printContent c ∈ (run a w).2) := by
  obtain ⟨pf, so, se, ir, lr, cr⟩ := w
  obtain ⟨attr⟩ := tr
  simp only at hpf hso hse hin hls hct
  subst hpf hso hse hin hls hct
  simp only [ToolsResult.mk.injEq] at hattr
  subst hattr
  cases ts with
  | nil => exact absurd rfl hne
  | cons h t =>
    refine ⟨?_, ?_, ?_, ?_⟩
    · simp [run, runInner, List.countP_append, List.countP_map, List.countP_cons,
        isCallTool, Function.comp]
    · simp [run, runInner]
    · intro n args hmem
      simp [run, runInner, List.mem_map] at hmem
      exact hmem
    · intro c hc
      simp [run, runInner, List.mem_map]
      exact hc

/-- Witness for C2 at a concrete world. -/
theorem c2_nonempty_tools_invocation_witness :
    (run "Bearer tok" okWorld).2.countP isCallTool = 1 ∧
    Ev.callToolOp ragTool ragArgs ∈ (run "Bearer tok" okWorld).2 ∧
    Ev.printContent "item1" ∈ (run "Bearer tok" okWorld).2 := by
  have h := c2_nonempty_tools_invocation "Bearer tok" okWorld "{}"
    ⟨some ["apify/rag-web-browser"]⟩ ["apify/rag-web-browser"] ⟨["item1", "item2"]⟩
    rfl rfl rfl rfl rfl rfl (by decide) rfl
  exact ⟨h.1, h.2.1, h.2.2.2 "item1" (by decide)⟩

/-- C9: if the list-tools result has no tools attribute at all, the run
does not take the early return: it proceeds to the tool invocation and
never prints the empty-tools notice. -/
theorem c9_missing_attr_proceeds
    (a : String) (w : World) (b : String) (tr : ToolsResult)
    (hpf : w.preflightRes = .ok b)
    (hso : w.sseOpenRes = .ok ())
    (hse : w.sessionEnterRes = .ok ())
    (hin : w.initRes = .ok ())
    (hls : w.listToolsRes = .ok tr)
    (hattr : tr.toolsAttr = none) :
    Ev.callToolOp ragTool ragArgs ∈ (run a w).2 ∧
    Ev.print "No tools available!" ∉ (run a w).2 := by
  obtain ⟨pf, so, se, ir, lr, cr⟩ := w
  obtain ⟨attr⟩ := tr
  simp only at hpf hso hse hin hls
  subst hpf hso hse hin hls
  simp only [ToolsResult.mk.injEq] at hattr
  subst hattr
  cases cr with
  | error e => simp [run, runInner]
  | ok res => simp [run, runInner, List.mem_map]

/-- Witness for C9 at a concrete world. -/
theorem c9_missing_attr_proceeds_witness :
    Ev.callToolOp ragTool ragArgs ∈ (run "Bearer tok" noAttrWorld).2 ∧
    Ev.print "No tools available!" ∉ (run "Bearer tok" noAttrWorld).2 :=
  c9_missing_attr_proceeds "Bearer tok" noAttrWorld "{}" ⟨none⟩
    rfl rfl rfl rfl rfl rfl

/-- Kinds of events the inner session body can emit: protocol operations
and prints only.  No HTTP GET, no SSE open/close, no environment read. -/
def innerEv : Ev → Bool
  | .initOp => true
  | .listToolsOp => true
  | .printTools _ => true
  | .print _ => true
  | .callToolOp _ _ => true
  | .printContent _ => true
  | _ => false

/-- Every event in the inner block's trace is an `innerEv`. -/
theorem runInner_all_innerEv (w : World) : (runInner w).2.all innerEv = true := by
  obtain ⟨pf, so, se, ir, lr, cr⟩ := w
  rcases ir with e | u
  · rfl
  · rcases lr with e | tools
    · rfl
    · rcases tools with ⟨attr⟩
      rcases cr with e | res <;> by_cases hattr : attr = some [] <;>
        simp [runInner, hattr, innerEv, List.all_map, Function.comp]

/-- Membership form of `runInner_all_innerEv`. -/
theorem runInner_mem_innerEv (w : World) (ev : Ev) (h : ev ∈ (runInner w).2) :
    innerEv ev = true :=
  List.all_eq_true.mp (runInner_all_innerEv w) ev h

/-- An event that is not an `innerEv` never occurs in the inner trace. -/
theorem runInner_not_mem (w : World) (ev : Ev) (hev : innerEv ev = false) :
    ev ∉ (runInner w).2 := fun h => by
  rw [runInner_mem_innerEv w ev h] at hev
  exact absurd hev (by simp)

/-- Left cancellation for string append. -/
theorem str_append_left_cancel (p a b : String) (h : p ++ a = p ++ b) : a = b := by
  have hd : (p ++ a).data = (p ++ b).data := congrArg String.data h
  rw [String.data_append, String.data_append] at hd
  exact String.ext (List.append_cancel_left hd)

/-- C3: once the SSE connection is acquired, it is released on every exit
path of the run, and once the session on top of it is acquired it too is
released; this holds for every world, so in particular whatever the
outcome of the later steps (normal completion, early return, or an
exception at initialize, list or call). -/
theorem c3_session_released
    (a : String) (w : World) (b : String)
    (hpf : w.preflightRes = .ok b)
    (hso : w.sseOpenRes = .ok ()) :
    Ev.sseClose ∈ (run a w).2 ∧
    (w.sessionEnterRes = .ok () → Ev.sessionClose ∈ (run a w).2) := by
  obtain ⟨pf, so, se, ir, lr, cr⟩ := w
  simp only at hpf hso
  subst hpf hso
  rcases se with e | u
  · simp [run]
  · cases u
    simp [run]

/-- Witness for C3 at a concrete world whose call step raises. -/
theorem c3_session_released_witness :
    Ev.sseClose ∈
      (run "Bearer tok" { okWorld with callToolRes := .error (.exc "boom") }).2 ∧
    Ev.sessionClose ∈
      (run "Bearer tok" { okWorld with callToolRes := .error (.exc "boom") }).2 := by
  have h := c3_session_released "Bearer tok"
    { okWorld with callToolRes := .error (.exc "boom") } "{}" rfl rfl
  exact ⟨h.1, h.2 rfl⟩

/-- C4: the SSE session is opened at `MCP_SERVER_URL ++ "/sse"` with a
60-unit timeout and the same Authorization value as the preflight GET;
moreover every SSE-open event of the run has exactly these parameters. -/
theorem c4_sse_open_params
    (a : String) (w : World) (b : String)
    (hpf : w.preflightRes = .ok b) :
    Ev.httpGet MCP_SERVER_URL a ∈ (run a w).2 ∧
    Ev.sseOpen (MCP_SERVER_URL ++ "/sse") 60 a ∈ (run a w).2 ∧
    ∀ u n hd, Ev.sseOpen u n hd ∈ (run a w).2 →
      u = MCP_SERVER_URL ++ "/sse" ∧ n = 60 ∧ hd = a := by
  obtain ⟨pf, so, se, ir, lr, cr⟩ := w
  simp only at hpf
  subst hpf
  refine ⟨?_, ?_, ?_⟩
  · rcases so with e | u
    · simp [run]
    · rcases se with e | u2 <;> simp [run]
  · rcases so with e | u
    · simp [run]
    · rcases se with e | u2 <;> simp [run]
  · intro u n hd hm
    rcases so with e | uu
    · simp [run] at hm
      exact hm
    · rcases se with e | u2
      · simp [run] at hm
        exact hm
      · simp [run] at hm
        rcases hm with hm | hm
        · exact hm
        · exact absurd (runInner_mem_innerEv _ _ hm) (by simp [innerEv])

/-- Witness for C4 at a concrete world. -/
theorem c4_sse_open_params_witness :
    Ev.httpGet MCP_SERVER_URL "Bearer tok" ∈ (run "Bearer tok" okWorld).2 ∧
    Ev.sseOpen (MCP_SERVER_URL ++ "/sse") 60 "Bearer tok" ∈
      (run "Bearer tok" okWorld).2 := by
  have h := c4_sse_open_params "Bearer tok" okWorld "{}" rfl
  exact ⟨h.1, h.2.1⟩

/-- C5: the run issues exactly one HTTP GET; its first four events are
the banner print, the GET at the base URL with the Authorization value,
the print of the parsed response body, and only then the SSE open — so
the single GET and the response print precede the streaming session. -/
theorem c5_preflight_once_first
    (a : String) (w : World) (b : String)
    (hpf : w.preflightRes = .ok b) :
    (run a w).2.countP isHttpGet = 1 ∧
    [Ev.print "Start MCP Server with Actors", Ev.httpGet MCP_SERVER_URL a,
     Ev.printResponse b, Ev.sseOpen (MCP_SERVER_URL ++ "/sse") 60 a] <+:
      (run a w).2 := by
  obtain ⟨pf, so, se, ir, lr, cr⟩ := w
  simp only at hpf
  subst hpf
  have hinner : (runInner ⟨.ok b, so, se, ir, lr, cr⟩).2.countP isHttpGet = 0 := by
    refine List.countP_eq_zero.mpr (fun ev h => ?_)
    have hh := runInner_mem_innerEv _ ev h
    cases ev <;> simp_all [innerEv, isHttpGet]
  refine ⟨?_, ?_⟩
  · rcases so with e | u
    · simp [run, List.countP_cons, isHttpGet]
    · rcases se with e | u2 <;>
        simp [run, List.countP_cons, List.countP_append, isHttpGet, hinner]
  · rcases so with e | u
    · exact ⟨[], rfl⟩
    · rcases se with e | u2
      · exact ⟨_, rfl⟩
      · exact ⟨_, rfl⟩

/-- Witness for C5 at a concrete world. -/
theorem c5_preflight_once_first_witness :
    (run "Bearer tok" okWorld).2.countP isHttpGet = 1 ∧
    [Ev.print "Start MCP Server with Actors",
     Ev.httpGet MCP_SERVER_URL "Bearer tok", Ev.printResponse "{}",
     Ev.sseOpen (MCP_SERVER_URL ++ "/sse") 60 "Bearer tok"] <+:
      (run "Bearer tok" okWorld).2 :=
  c5_preflight_once_first "Bearer tok" okWorld "{}" rfl

/-- C6: if the first failing step of the run is `s` with error `e`, then
the run's result is exactly `.error e` (the exception propagates
unhandled, no retry or catch) and the trace contains no event of any
step after `s` (no later step is executed). -/
theorem c6_failure_aborts
    (a : String) (w : World) (s : Step) (e : PyErr)
    (h : reachedAndFailed w s e) :
    (run a w).1 = .error e ∧ ∀ ev ∈ (run a w).2, ¬ laterEv s ev := by
  obtain ⟨pf, so, se, ir, lr, cr⟩ := w
  cases s with
  | preflight =>
    simp only [reachedAndFailed] at h
    subst h
    simp [run, laterEv, evStepIdx]
  | sseOpen =>
    obtain ⟨h1, h2⟩ := h
    simp only at h2
    subst h2
    rcases pf with e0 | b
    · simp [isOk] at h1
    · simp [run, laterEv, evStepIdx, Step.idx]
  | sessionEnter =>
    obtain ⟨h1, h2, h3⟩ := h
    simp only at h3
    subst h3
    rcases pf with e0 | b
    · simp [isOk] at h1
    · rcases so with e0 | u
      · simp [isOk] at h2
      · simp [run, laterEv, evStepIdx, Step.idx]
  | initStep =>
    obtain ⟨h1, h2, h3, h4⟩ := h
    simp only at h4
    subst h4
    rcases pf with e0 | b
    · simp [isOk] at h1
    · rcases so with e0 | u
      · simp [isOk] at h2
      · rcases se with e0 | u2
        · simp [isOk] at h3
        · simp [run, runInner, laterEv, evStepIdx, Step.idx]
  | listTools =>
    obtain ⟨h1, h2, h3, h4, h5⟩ := h
    simp only at h5
    subst h5
    rcases pf with e0 | b
    · simp [isOk] at h1
    · rcases so with e0 | u
      · simp [isOk] at h2
      · rcases se with e0 | u2
        · simp [isOk] at h3
        · rcases ir with e0 | u3
          · simp [isOk] at h4
          · simp [run, runInner, laterEv, evStepIdx, Step.idx]
  | callTool =>
    obtain ⟨h1, h2, h3, h4, ⟨tr, h5, h6⟩, h7⟩ := h
    simp only at h5 h7
    subst h5 h7
    rcases pf with e0 | b
    · simp [isOk] at h1
    · rcases so with e0 | u
      · simp [isOk] at h2
      · rcases se with e0 | u2
        · simp [isOk] at h3
        · rcases ir with e0 | u3
          · simp [isOk] at h4
          · rcases tr with ⟨attr⟩
            simp only [ToolsResult.mk.injEq] at h6
            simp [run, runInner, h6, laterEv, evStepIdx, Step.idx]

/-- Witness for C6: the SSE open fails in an otherwise healthy world. -/
theorem c6_failure_aborts_witness :
    (run "Bearer tok" { okWorld with sseOpenRes := .error (.exc "refused") }).1
      = .error (.exc "refused") ∧
    Ev.callToolOp ragTool ragArgs ∉
      (run "Bearer tok" { okWorld with sseOpenRes := .error (.exc "refused") }).2 := by
  have h := c6_failure_aborts "Bearer tok"
    { okWorld with sseOpenRes := .error (.exc "refused") }
    Step.sseOpen (.exc "refused") ⟨rfl, rfl⟩
  refine ⟨h.1, fun hm => ?_⟩
  exact h.2 _ hm (by simp [laterEv, evStepIdx, Step.idx])

/-- C7: the network operations of any run, in trace order, form a prefix
of the canonical sequence: preflight GET, SSE open, initialize, list
tools, tool call — each operation strictly after the previous one, with
at most one tool call. -/
theorem c7_network_order (a : String) (w : World) :
    (run a w).2.filter netEv <+:
      [Ev.httpGet MCP_SERVER_URL a,
       Ev.sseOpen (MCP_SERVER_URL ++ "/sse") 60 a,
       Ev.initOp, Ev.listToolsOp, Ev.callToolOp ragTool ragArgs] := by
  obtain ⟨pf, so, se, ir, lr, cr⟩ := w
  rcases pf with e | b
  · exact ⟨_, rfl⟩
  · rcases so with e | u
    · exact ⟨_, rfl⟩
    · rcases se with e | u2
      · exact ⟨_, rfl⟩
      · rcases ir with e | u3
        · exact ⟨_, rfl⟩
        · rcases lr with e | tools
          · exact ⟨_, rfl⟩
          · rcases tools with ⟨attr⟩
            by_cases hattr : attr = some []
            · subst hattr
              exact ⟨_, rfl⟩
            · rcases cr with e | res
              · refine ⟨[], ?_⟩
                simp [run, runInner, hattr, List.filter_append, List.filter_cons, netEv]
              · rcases res with ⟨content⟩
                refine ⟨[], ?_⟩
                simp [run, runInner, hattr, List.filter_append, List.filter_cons,
                  List.filter_map, netEv, Function.comp]

/-- C8: against the spec-modelled service, if the environment token
(rendered into the header; a missing token renders as "None") is not one
the service recognises, the preflight fails with an authentication error,
the run's result is that error (not a silent success), and no streaming
session is ever opened. -/
theorem c8_bad_token_preflight_fails
    (validTokens : List String) (tok : Option String) (w : World)
    (hbad : pyOptStr tok ∉ validTokens) :
    (run (HEADERS tok)
        { w with preflightRes := serverPreflight validTokens (HEADERS tok) }).1
      = .error PyErr.authError ∧
    ∀ u n hd, Ev.sseOpen u n hd ∉
      (run (HEADERS tok)
        { w with preflightRes := serverPreflight validTokens (HEADERS tok) }).2 := by
  have hpf : serverPreflight validTokens (HEADERS tok) = .error PyErr.authError := by
    rw [serverPreflight, if_neg]
    intro hany
    rw [List.any_eq_true] at hany
    obtain ⟨t, ht, heq⟩ := hany
    rw [decide_eq_true_iff] at heq
    simp only [HEADERS] at heq
    exact hbad (str_append_left_cancel "Bearer " _ _ heq ▸ ht)
  constructor
  · simp [run, hpf]
  · intro u n hd
    simp [run, hpf]

/-- Witness for C8: the token is absent from the environment. -/
theorem c8_bad_token_preflight_fails_witness :
    (run (HEADERS none)
        { okWorld with preflightRes := serverPreflight ["goodtoken"] (HEADERS none) }).1
      = .error PyErr.authError ∧
    Ev.sseOpen (MCP_SERVER_URL ++ "/sse") 60 (HEADERS none) ∉
      (run (HEADERS none)
        { okWorld with preflightRes := serverPreflight ["goodtoken"] (HEADERS none) }).2 := by
  have h := c8_bad_token_preflight_fails ["goodtoken"] none okWorld (by decide)
  exact ⟨h.1, h.2 _ _ _⟩

/-- C10: in the whole program (module load then run), the environment is
read exactly once; the first two events are the .env load from the fixed
path (three parents above the script, joined with ".env") followed by
that single read; and every HTTP GET and every SSE open of the run
carries the one header value built from that read. -/
theorem c10_token_read_once
    (scriptPath : List String) (env : String → Option String) (w : World) :
    (fullProgram scriptPath env w).2.countP isEnvRead = 1 ∧
    [Ev.loadDotenv (dotenvPath scriptPath), Ev.envRead "APIFY_TOKEN"] <+:
      (fullProgram scriptPath env w).2 ∧
    (∀ u hd, Ev.httpGet u hd ∈ (fullProgram scriptPath env w).2 →
      hd = HEADERS (env "APIFY_TOKEN")) ∧
    (∀ u n hd, Ev.sseOpen u n hd ∈ (fullProgram scriptPath env w).2 →
      hd = HEADERS (env "APIFY_TOKEN")) := by
  obtain ⟨pf, so, se, ir, lr, cr⟩ := w
  have hAll : ∀ ev ∈ (runInner ⟨pf, so, se, ir, lr, cr⟩).2, innerEv ev = true :=
    fun ev h => runInner_mem_innerEv _ ev h
  refine ⟨?_, ?_, ?_, ?_⟩
  · have hinner : (runInner ⟨pf, so, se, ir, lr, cr⟩).2.countP isEnvRead = 0 :=
      List.countP_eq_zero.mpr fun ev h => by
        have hh := hAll ev h
        cases ev <;> simp_all [innerEv, isEnvRead]
    rcases pf with e | b
    · simp [fullProgram, moduleInit, run, isEnvRead, List.countP_cons]
    · rcases so with e | u
      · simp [fullProgram, moduleInit, run, isEnvRead, List.countP_cons]
      · rcases se with e | u2 <;>
          simp [fullProgram, moduleInit, run, isEnvRead, List.countP_cons,
            List.countP_append, hinner]
  · simp only [fullProgram, moduleInit]
    exact ⟨_, rfl⟩
  · intro u hd hm
    rcases pf with e | b
    · simp [fullProgram, moduleInit, run] at hm
      exact hm.2
    · rcases so with e | uu
      · simp [fullProgram, moduleInit, run] at hm
        exact hm.2
      · rcases se with e | u2
        · simp [fullProgram, moduleInit, run] at hm
          exact hm.2
        · simp [fullProgram, moduleInit, run] at hm
          rcases hm with hm | hm
          · exact hm.2
          · have := hAll _ hm
            simp [innerEv] at this
  · intro u n hd hm
    rcases pf with e | b
    · simp [fullProgram, moduleInit, run] at hm
    · rcases so with e | uu
      · simp [fullProgram, moduleInit, run] at hm
        exact hm.2.2
      · rcases se with e | u2
        · simp [fullProgram, moduleInit, run] at hm
          exact hm.2.2
        · simp [fullProgram, moduleInit, run] at hm
          rcases hm with hm | hm
          · exact hm.2.2
          · have := hAll _ hm
            simp [innerEv] at this

end ClientSse
